import Mathlib

/-!
Verification of the PVDegradationTools LETID defect-kinetics loop and of the
`pvdeg` scenario / weather entry points.

The defect-kinetics timestep loop is embedded from
`tutorials_and_tools/LETID - Accelerated Test.py` (the `for index, timestep in
timesteps.iterrows()` loop): defect-state populations are rational numbers,
rows of the timeseries dataframe carry a timestamp (in seconds), a
temperature and an injection level, and the helper functions that live in the
`letid` / `collection` modules (rate constants, carrier factors, Jsc) are
passed in as explicit function parameters, since only their call sites appear
in the loop.  `tau_now` is modelled from the specification (linear
interpolation between `tau_0` and `tau_deg` weighted by `NB/100`), as the
`letid` module itself ships outside the sources verified here.
-/

/-- One input row of the timeseries dataframe: timestamp (converted to
seconds), ambient temperature (deg C) and injection level. -/
structure Row where
  t : ℚ
  temp : ℚ
  inj : ℚ
deriving DecidableEq

/-- The defect-state vector carried from one timestep to the next:
percentages of material in states A, B and C. -/
structure NState where
  nA : ℚ
  nB : ℚ
  nC : ℚ
deriving DecidableEq

/-- The functions the loop body calls but whose implementation lives in the
`letid` and `collection` modules: the four Arrhenius rate constants as
functions of the row temperature (`letid.k_ij` applied to the mechanism
constants), the three carrier factors as functions of
(tau, temperature, injection, jsc) (`letid.carrier_factor`), and Jsc as a
function of tau (`collection.calculate_jsc_from_tau_cp` with the device
parameters fixed). -/
structure LetidFns where
  kAB : ℚ → ℚ
  kBA : ℚ → ℚ
  kBC : ℚ → ℚ
  kCB : ℚ → ℚ
  xab : ℚ → ℚ → ℚ → ℚ → ℚ
  xba : ℚ → ℚ → ℚ → ℚ → ℚ
  xbc : ℚ → ℚ → ℚ → ℚ → ℚ
  jsc : ℚ → ℚ

/-- Instantaneous change in NA, from the loop body:
`dN_Adt = (k_BA * n_B * x_ba) - (k_AB * n_A * x_ab)`. -/
def dN_Adt (kAB kBA xab xba nA nB : ℚ) : ℚ :=
  (kBA * nB * xba) - (kAB * nA * xab)

/-- Instantaneous change in NB, from the loop body:
`dN_Bdt = (k_AB * n_A * x_ab) + (k_CB * n_C) - ((k_BA * x_ba + k_BC * x_bc) * n_B)`. -/
def dN_Bdt (kAB kBA kBC kCB xab xba xbc nA nB nC : ℚ) : ℚ :=
  (kAB * nA * xab) + (kCB * nC) - ((kBA * xba + kBC * xbc) * nB)

/-- Instantaneous change in NC, from the loop body:
`dN_Cdt = (k_BC * n_B * x_bc) - (k_CB * n_C)`. -/
def dN_Cdt (kBC kCB xbc nB nC : ℚ) : ℚ :=
  (kBC * nB * xbc) - (kCB * nC)

/-- Modelled from the spec: `letid.tau_now` (not shipped with the verified
sources) recomputes the instantaneous lifetime as a linear interpolation
between `tau_0` (states A/C) and `tau_deg` (state B), weighted by `NB/100`:
`tau = tau_0 + (NB/100) * (tau_deg - tau_0)`. -/
def tau_now (tau_0 tau_deg nB : ℚ) : ℚ :=
  tau_0 + (nB / 100) * (tau_deg - tau_0)

/-- One loop-body evaluation at a given lifetime `tau`: compute Jsc, the four
rate constants at the row temperature, the three carrier factors, the three
derivatives, and advance each population by `derivative * dt`. -/
def stepAtTau (p : LetidFns) (tau : ℚ) (prev : NState) (temp inj dt : ℚ) : NState :=
  let jsc := p.jsc tau
  let k_AB := p.kAB temp
  let k_BA := p.kBA temp
  let k_BC := p.kBC temp
  let k_CB := p.kCB temp
  let x_ab := p.xab tau temp inj jsc
  let x_ba := p.xba tau temp inj jsc
  let x_bc := p.xbc tau temp inj jsc
  { nA := prev.nA + dN_Adt k_AB k_BA x_ab x_ba prev.nA prev.nB * dt
    nB := prev.nB + dN_Bdt k_AB k_BA k_BC k_CB x_ab x_ba x_bc prev.nA prev.nB prev.nC * dt
    nC := prev.nC + dN_Cdt k_BC k_CB x_bc prev.nB prev.nC * dt }

/-- One iteration of the timestep loop: the lifetime is first recomputed from
the previous row's NB (`tau = letid.tau_now(tau_0, tau_deg, n_B)`), then the
populations are advanced at that lifetime. -/
def step (p : LetidFns) (tau_0 tau_deg : ℚ) (prev : NState) (temp inj dt : ℚ) : NState :=
  let tau := tau_now tau_0 tau_deg prev.nB
  stepAtTau p tau prev temp inj dt

/-- Tail of the timestep loop: given the previous row and the previous state,
process the remaining rows in order, each step using the current row's
temperature and injection and the timestamp difference to the previous row. -/
def letidAux (p : LetidFns) (tau_0 tau_deg : ℚ) : Row → NState → List Row → List NState
  | _, _, [] => []
  | prev, s, r :: rest =>
      let s2 := step p tau_0 tau_deg s r.temp r.inj (r.t - prev.t)
      s2 :: letidAux p tau_0 tau_deg r s2 rest

/-- The full timestep loop: row 0 keeps the user-seeded initial defect
percentages, every later row is produced by one loop iteration from its
predecessor. -/
def letidStates (p : LetidFns) (tau_0 tau_deg : ℚ) (init : NState) : List Row → List NState
  | [] => []
  | r0 :: rest => init :: letidAux p tau_0 tau_deg r0 init rest

/-- The post-loop lifetime column: `timesteps [tau] = letid.tau_now(tau_0,
tau_deg, timesteps [NB])` applied to every produced row. -/
def tauColumn (tau_0 tau_deg : ℚ) (states : List NState) : List ℚ :=
  states.map fun s => tau_now tau_0 tau_deg s.nB

/-- Default defect-state vector used with positional `getD` access. -/
def defaultN : NState := ⟨0, 0, 0⟩

/-- Default row used with positional `getD` access. -/
def defaultRow : Row := ⟨0, 0, 0⟩

theorem letidAux_length (p : LetidFns) (tau_0 tau_deg : ℚ) :
    ∀ (rows : List Row) (prev : Row) (s : NState),
      (letidAux p tau_0 tau_deg prev s rows).length = rows.length := by
  intro rows
  induction rows with
  | nil => intro prev s; rfl
  | cons r rest ih =>
      intro prev s
      simp [letidAux, ih]

theorem letidStates_length (p : LetidFns) (tau_0 tau_deg : ℚ) (init : NState)
    (rows : List Row) :
    (letidStates p tau_0 tau_deg init rows).length = rows.length := by
  cases rows with
  | nil => rfl
  | cons r rest => simp [letidStates, letidAux_length]

/-- Modelled from the spec: right-hand side of the defect ODE for NA,
`dNA/dt = k_BA * NB * x_ba - k_AB * NA * x_ab`. -/
def dN_Adt_spec (kAB kBA xab xba nA nB : ℚ) : ℚ :=
  kBA * nB * xba - kAB * nA * xab

/-- Modelled from the spec: right-hand side of the defect ODE for NB,
`dNB/dt = k_AB * NA * x_ab + k_CB * NC - (k_BA * x_ba + k_BC * x_bc) * NB`;
the C to B term `k_CB * NC` carries no carrier-factor multiplier. -/
def dN_Bdt_spec (kAB kBA kBC kCB xab xba xbc nA nB nC : ℚ) : ℚ :=
  kAB * nA * xab + kCB * nC - (kBA * xba + kBC * xbc) * nB

/-- Modelled from the spec: right-hand side of the defect ODE for NC,
`dNC/dt = k_BC * NB * x_bc - k_CB * NC`. -/
def dN_Cdt_spec (kBC kCB xbc nB nC : ℚ) : ℚ :=
  kBC * nB * xbc - kCB * nC

/-- Claim C1: for every defect-state vector and all nonnegative rate
constants and carrier factors, the three per-step kinetic derivatives sum to
zero, and consequently one forward-Euler loop iteration (`step`) leaves the
total NA + NB + NC unchanged in exact arithmetic. -/
theorem derivatives_sum_zero (nA nB nC kAB kBA kBC kCB xab xba xbc : ℚ)
    (hkAB : 0 ≤ kAB) (hkBA : 0 ≤ kBA) (hkBC : 0 ≤ kBC) (hkCB : 0 ≤ kCB)
    (hxab : 0 ≤ xab) (hxba : 0 ≤ xba) (hxbc : 0 ≤ xbc) :
    dN_Adt kAB kBA xab xba nA nB
      + dN_Bdt kAB kBA kBC kCB xab xba xbc nA nB nC
      + dN_Cdt kBC kCB xbc nB nC = 0
    ∧ ∀ (p : LetidFns) (tau_0 tau_deg temp inj dt : ℚ) (prev : NState),
        (step p tau_0 tau_deg prev temp inj dt).nA
          + (step p tau_0 tau_deg prev temp inj dt).nB
          + (step p tau_0 tau_deg prev temp inj dt).nC
          = prev.nA + prev.nB + prev.nC := by
  constructor
  · simp only [dN_Adt, dN_Bdt, dN_Cdt]
    ring
  · intro p tau_0 tau_deg temp inj dt prev
    simp only [step, stepAtTau, dN_Adt, dN_Bdt, dN_Cdt]
    ring

/-- Witness for claim C1 at a concrete defect state and concrete nonnegative
rates and carrier factors. -/
theorem derivatives_sum_zero_witness :
    ((0:ℚ) ≤ 2 ∧ (0:ℚ) ≤ 3 ∧ (0:ℚ) ≤ 5 ∧ (0:ℚ) ≤ 7
      ∧ (0:ℚ) ≤ 1 ∧ (0:ℚ) ≤ 4 ∧ (0:ℚ) ≤ 6)
    ∧ (dN_Adt 2 3 1 4 90 10
        + dN_Bdt 2 3 5 7 1 4 6 90 10 0
        + dN_Cdt 5 7 6 10 0 = 0
      ∧ ∀ (p : LetidFns) (tau_0 tau_deg temp inj dt : ℚ) (prev : NState),
          (step p tau_0 tau_deg prev temp inj dt).nA
            + (step p tau_0 tau_deg prev temp inj dt).nB
            + (step p tau_0 tau_deg prev temp inj dt).nC
            = prev.nA + prev.nB + prev.nC) :=
  ⟨⟨by norm_num, by norm_num, by norm_num, by norm_num,
    by norm_num, by norm_num, by norm_num⟩,
   derivatives_sum_zero 90 10 0 2 3 5 7 1 4 6
     (by norm_num) (by norm_num) (by norm_num) (by norm_num)
     (by norm_num) (by norm_num) (by norm_num)⟩

/-- Claim C2: the derivatives computed by the timestep loop are exactly the
right-hand sides stated in the specification, and at every loop iteration
the increment of each population is the corresponding spec right-hand side
(evaluated at the lifetime interpolated from the previous NB) times dt; the
C to B term carries no carrier-factor multiplier, as visible in
`dN_Bdt_spec` and `dN_Cdt_spec`. -/
theorem rhs_matches_spec_equations :
    (∀ kAB kBA kBC kCB xab xba xbc nA nB nC : ℚ,
      dN_Adt kAB kBA xab xba nA nB = dN_Adt_spec kAB kBA xab xba nA nB
      ∧ dN_Bdt kAB kBA kBC kCB xab xba xbc nA nB nC
          = dN_Bdt_spec kAB kBA kBC kCB xab xba xbc nA nB nC
      ∧ dN_Cdt kBC kCB xbc nB nC = dN_Cdt_spec kBC kCB xbc nB nC)
    ∧ ∀ (p : LetidFns) (tau_0 tau_deg temp inj dt : ℚ) (prev : NState),
        (step p tau_0 tau_deg prev temp inj dt).nA - prev.nA
          = dN_Adt_spec (p.kAB temp) (p.kBA temp)
              (p.xab (tau_now tau_0 tau_deg prev.nB) temp inj
                (p.jsc (tau_now tau_0 tau_deg prev.nB)))
              (p.xba (tau_now tau_0 tau_deg prev.nB) temp inj
                (p.jsc (tau_now tau_0 tau_deg prev.nB)))
              prev.nA prev.nB * dt
        ∧ (step p tau_0 tau_deg prev temp inj dt).nB - prev.nB
          = dN_Bdt_spec (p.kAB temp) (p.kBA temp) (p.kBC temp) (p.kCB temp)
              (p.xab (tau_now tau_0 tau_deg prev.nB) temp inj
                (p.jsc (tau_now tau_0 tau_deg prev.nB)))
              (p.xba (tau_now tau_0 tau_deg prev.nB) temp inj
                (p.jsc (tau_now tau_0 tau_deg prev.nB)))
              (p.xbc (tau_now tau_0 tau_deg prev.nB) temp inj
                (p.jsc (tau_now tau_0 tau_deg prev.nB)))
              prev.nA prev.nB prev.nC * dt
        ∧ (step p tau_0 tau_deg prev temp inj dt).nC - prev.nC
          = dN_Cdt_spec (p.kBC temp) (p.kCB temp)
              (p.xbc (tau_now tau_0 tau_deg prev.nB) temp inj
                (p.jsc (tau_now tau_0 tau_deg prev.nB)))
              prev.nB prev.nC * dt := by
  constructor
  · intro kAB kBA kBC kCB xab xba xbc nA nB nC
    refine ⟨?_, ?_, ?_⟩ <;>
      simp only [dN_Adt, dN_Bdt, dN_Cdt, dN_Adt_spec, dN_Bdt_spec, dN_Cdt_spec]
  · intro p tau_0 tau_deg temp inj dt prev
    refine ⟨?_, ?_, ?_⟩ <;>
      · simp only [step, stepAtTau, dN_Adt, dN_Bdt, dN_Cdt,
          dN_Adt_spec, dN_Bdt_spec, dN_Cdt_spec]
        ring

/-- Claim C4: the lifetime used by every loop iteration is recomputed from
the previous row's NB by linear interpolation between `tau_0` and `tau_deg`
weighted by `NB/100`; and `tau_now 350 41 0 = 350` exactly. -/
theorem tau_recomputed_by_interpolation :
    (∀ tau_0 tau_deg nB : ℚ,
      tau_now tau_0 tau_deg nB = (1 - nB / 100) * tau_0 + (nB / 100) * tau_deg)
    ∧ (∀ (p : LetidFns) (tau_0 tau_deg temp inj dt : ℚ) (prev : NState),
        step p tau_0 tau_deg prev temp inj dt
          = stepAtTau p (tau_now tau_0 tau_deg prev.nB) prev temp inj dt)
    ∧ tau_now 350 41 0 = 350 := by
  refine ⟨?_, ?_, ?_⟩
  · intro tau_0 tau_deg nB
    simp only [tau_now]
    ring
  · intro p tau_0 tau_deg temp inj dt prev
    rfl
  · norm_num [tau_now]

theorem letidAux_getD_zero (p : LetidFns) (tau_0 tau_deg : ℚ)
    (prev : Row) (s : NState) (r : Row) (rest : List Row) :
    (letidAux p tau_0 tau_deg prev s (r :: rest)).getD 0 defaultN
      = step p tau_0 tau_deg s r.temp r.inj (r.t - prev.t) := by
  simp [letidAux]

theorem letidAux_getD_succ (p : LetidFns) (tau_0 tau_deg : ℚ) :
    ∀ (rows : List Row) (prev : Row) (s : NState) (i : ℕ),
      i + 1 < rows.length →
      (letidAux p tau_0 tau_deg prev s rows).getD (i + 1) defaultN
        = step p tau_0 tau_deg
            ((letidAux p tau_0 tau_deg prev s rows).getD i defaultN)
            (rows.getD (i + 1) defaultRow).temp
            (rows.getD (i + 1) defaultRow).inj
            ((rows.getD (i + 1) defaultRow).t - (rows.getD i defaultRow).t) := by
  intro rows
  induction rows with
  | nil =>
      intro prev s i h
      simp at h
  | cons r rest ih =>
      intro prev s i h
      cases i with
      | zero =>
          cases rest with
          | nil => simp at h
          | cons r2 rest2 =>
              simp only [letidAux, List.getD_cons_succ, List.getD_cons_zero]
      | succ i =>
          have h2 : i + 1 < rest.length := by
            simpa using h
          simp only [letidAux, List.getD_cons_succ]
          exact ih r _ i h2

/-- Claim C3: for every pair of consecutive rows of the loop output, each
defect population is advanced by exactly one explicit forward-Euler step,
`N(t + dt) = N(t) + dN/dt * dt`, where `dt` is the timestamp difference
between the two rows (in seconds) and the derivatives are evaluated at the
previous state with the current row's temperature and injection; the rows
may be irregularly spaced. -/
theorem euler_step_consecutive_rows (p : LetidFns) (tau_0 tau_deg : ℚ)
    (init : NState) (rows : List Row) (i : ℕ) (h : i + 1 < rows.length) :
    ((letidStates p tau_0 tau_deg init rows).getD (i + 1) defaultN).nA
      = ((letidStates p tau_0 tau_deg init rows).getD i defaultN).nA
        + dN_Adt
            (p.kAB (rows.getD (i + 1) defaultRow).temp)
            (p.kBA (rows.getD (i + 1) defaultRow).temp)
            (p.xab
              (tau_now tau_0 tau_deg
                (((letidStates p tau_0 tau_deg init rows).getD i defaultN).nB))
              (rows.getD (i + 1) defaultRow).temp
              (rows.getD (i + 1) defaultRow).inj
              (p.jsc (tau_now tau_0 tau_deg
                (((letidStates p tau_0 tau_deg init rows).getD i defaultN).nB))))
            (p.xba
              (tau_now tau_0 tau_deg
                (((letidStates p tau_0 tau_deg init rows).getD i defaultN).nB))
              (rows.getD (i + 1) defaultRow).temp
              (rows.getD (i + 1) defaultRow).inj
              (p.jsc (tau_now tau_0 tau_deg
                (((letidStates p tau_0 tau_deg init rows).getD i defaultN).nB))))
            (((letidStates p tau_0 tau_deg init rows).getD i defaultN).nA)
            (((letidStates p tau_0 tau_deg init rows).getD i defaultN).nB)
          * ((rows.getD (i + 1) defaultRow).t - (rows.getD i defaultRow).t)
    ∧ ((letidStates p tau_0 tau_deg init rows).getD (i + 1) defaultN).nB
      = ((letidStates p tau_0 tau_deg init rows).getD i defaultN).nB
        + dN_Bdt
            (p.kAB (rows.getD (i + 1) defaultRow).temp)
            (p.kBA (rows.getD (i + 1) defaultRow).temp)
            (p.kBC (rows.getD (i + 1) defaultRow).temp)
            (p.kCB (rows.getD (i + 1) defaultRow).temp)
            (p.xab
              (tau_now tau_0 tau_deg
                (((letidStates p tau_0 tau_deg init rows).getD i defaultN).nB))
              (rows.getD (i + 1) defaultRow).temp
              (rows.getD (i + 1) defaultRow).inj
              (p.jsc (tau_now tau_0 tau_deg
                (((letidStates p tau_0 tau_deg init rows).getD i defaultN).nB))))
            (p.xba
              (tau_now tau_0 tau_deg
                (((letidStates p tau_0 tau_deg init rows).getD i defaultN).nB))
              (rows.getD (i + 1) defaultRow).temp
              (rows.getD (i + 1) defaultRow).inj
              (p.jsc (tau_now tau_0 tau_deg
                (((letidStates p tau_0 tau_deg init rows).getD i defaultN).nB))))
            (p.xbc
              (tau_now tau_0 tau_deg
                (((letidStates p tau_0 tau_deg init rows).getD i defaultN).nB))
              (rows.getD (i + 1) defaultRow).temp
              (rows.getD (i + 1) defaultRow).inj
              (p.jsc (tau_now tau_0 tau_deg
                (((letidStates p tau_0 tau_deg init rows).getD i defaultN).nB))))
            (((letidStates p tau_0 tau_deg init rows).getD i defaultN).nA)
            (((letidStates p tau_0 tau_deg init rows).getD i defaultN).nB)
            (((letidStates p tau_0 tau_deg init rows).getD i defaultN).nC)
          * ((rows.getD (i + 1) defaultRow).t - (rows.getD i defaultRow).t)
    ∧ ((letidStates p tau_0 tau_deg init rows).getD (i + 1) defaultN).nC
      = ((letidStates p tau_0 tau_deg init rows).getD i defaultN).nC
        + dN_Cdt
            (p.kBC (rows.getD (i + 1) defaultRow).temp)
            (p.kCB (rows.getD (i + 1) defaultRow).temp)
            (p.xbc
              (tau_now tau_0 tau_deg
                (((letidStates p tau_0 tau_deg init rows).getD i defaultN).nB))
              (rows.getD (i + 1) defaultRow).temp
              (rows.getD (i + 1) defaultRow).inj
              (p.jsc (tau_now tau_0 tau_deg
                (((letidStates p tau_0 tau_deg init rows).getD i defaultN).nB))))
            (((letidStates p tau_0 tau_deg init rows).getD i defaultN).nB)
            (((letidStates p tau_0 tau_deg init rows).getD i defaultN).nC)
          * ((rows.getD (i + 1) defaultRow).t - (rows.getD i defaultRow).t) := by
  have key : (letidStates p tau_0 tau_deg init rows).getD (i + 1) defaultN
      = step p tau_0 tau_deg
          ((letidStates p tau_0 tau_deg init rows).getD i defaultN)
          (rows.getD (i + 1) defaultRow).temp
          (rows.getD (i + 1) defaultRow).inj
          ((rows.getD (i + 1) defaultRow).t - (rows.getD i defaultRow).t) := by
    cases rows with
    | nil => simp at h
    | cons r0 rest =>
        cases i with
        | zero =>
            cases rest with
            | nil => simp at h
            | cons r1 rest2 =>
                simp only [letidStates, List.getD_cons_succ, List.getD_cons_zero]
                rw [letidAux_getD_zero]
        | succ i =>
            have h2 : i + 1 < rest.length := by
              simpa using h
            simp only [letidStates, List.getD_cons_succ]
            exact letidAux_getD_succ p tau_0 tau_deg rest r0 init i h2
  rw [key]
  exact ⟨rfl, rfl, rfl⟩

/-- Concrete loop functions used for witness runs: constant rate constants
and carrier factors, constant Jsc. -/
def witnessFns : LetidFns where
  kAB := fun _ => 1
  kBA := fun _ => 1/2
  kBC := fun _ => 1/4
  kCB := fun _ => 1/8
  xab := fun _ _ _ _ => 1
  xba := fun _ _ _ _ => 1
  xbc := fun _ _ _ _ => 1
  jsc := fun _ => 40

/-- Concrete two-row timeseries used for witness runs: one minute between
the rows, 75 deg C, 0.1 suns injection. -/
def witnessRows : List Row := [⟨0, 75, 1/10⟩, ⟨60, 75, 1/10⟩]

/-- Concrete initial defect state used for witness runs: all material in
state A. -/
def witnessInit : NState := ⟨100, 0, 0⟩

/-- Witness for claim C3 at the concrete two-row run, index 0. -/
theorem euler_step_consecutive_rows_witness :
    0 + 1 < witnessRows.length
    ∧ (((letidStates witnessFns 115 55 witnessInit witnessRows).getD (0 + 1) defaultN).nA
      = ((letidStates witnessFns 115 55 witnessInit witnessRows).getD 0 defaultN).nA
        + dN_Adt
            (witnessFns.kAB (witnessRows.getD (0 + 1) defaultRow).temp)
            (witnessFns.kBA (witnessRows.getD (0 + 1) defaultRow).temp)
            (witnessFns.xab
              (tau_now 115 55
                (((letidStates witnessFns 115 55 witnessInit witnessRows).getD 0 defaultN).nB))
              (witnessRows.getD (0 + 1) defaultRow).temp
              (witnessRows.getD (0 + 1) defaultRow).inj
              (witnessFns.jsc (tau_now 115 55
                (((letidStates witnessFns 115 55 witnessInit witnessRows).getD 0 defaultN).nB))))
            (witnessFns.xba
              (tau_now 115 55
                (((letidStates witnessFns 115 55 witnessInit witnessRows).getD 0 defaultN).nB))
              (witnessRows.getD (0 + 1) defaultRow).temp
              (witnessRows.getD (0 + 1) defaultRow).inj
              (witnessFns.jsc (tau_now 115 55
                (((letidStates witnessFns 115 55 witnessInit witnessRows).getD 0 defaultN).nB))))
            (((letidStates witnessFns 115 55 witnessInit witnessRows).getD 0 defaultN).nA)
            (((letidStates witnessFns 115 55 witnessInit witnessRows).getD 0 defaultN).nB)
          * ((witnessRows.getD (0 + 1) defaultRow).t - (witnessRows.getD 0 defaultRow).t)
    ∧ (((letidStates witnessFns 115 55 witnessInit witnessRows).getD (0 + 1) defaultN).nB
      = ((letidStates witnessFns 115 55 witnessInit witnessRows).getD 0 defaultN).nB
        + dN_Bdt
            (witnessFns.kAB (witnessRows.getD (0 + 1) defaultRow).temp)
            (witnessFns.kBA (witnessRows.getD (0 + 1) defaultRow).temp)
            (witnessFns.kBC (witnessRows.getD (0 + 1) defaultRow).temp)
            (witnessFns.kCB (witnessRows.getD (0 + 1) defaultRow).temp)
            (witnessFns.xab
              (tau_now 115 55
                (((letidStates witnessFns 115 55 witnessInit witnessRows).getD 0 defaultN).nB))
              (witnessRows.getD (0 + 1) defaultRow).temp
              (witnessRows.getD (0 + 1) defaultRow).inj
              (witnessFns.jsc (tau_now 115 55
                (((letidStates witnessFns 115 55 witnessInit witnessRows).getD 0 defaultN).nB))))
            (witnessFns.xba
              (tau_now 115 55
                (((letidStates witnessFns 115 55 witnessInit witnessRows).getD 0 defaultN).nB))
              (witnessRows.getD (0 + 1) defaultRow).temp
              (witnessRows.getD (0 + 1) defaultRow).inj
              (witnessFns.jsc (tau_now 115 55
                (((letidStates witnessFns 115 55 witnessInit witnessRows).getD 0 defaultN).nB))))
            (witnessFns.xbc
              (tau_now 115 55
                (((letidStates witnessFns 115 55 witnessInit witnessRows).getD 0 defaultN).nB))
              (witnessRows.getD (0 + 1) defaultRow).temp
              (witnessRows.getD (0 + 1) defaultRow).inj
              (witnessFns.jsc (tau_now 115 55
                (((letidStates witnessFns 115 55 witnessInit witnessRows).getD 0 defaultN).nB))))
            (((letidStates witnessFns 115 55 witnessInit witnessRows).getD 0 defaultN).nA)
            (((letidStates witnessFns 115 55 witnessInit witnessRows).getD 0 defaultN).nB)
            (((letidStates witnessFns 115 55 witnessInit witnessRows).getD 0 defaultN).nC)
          * ((witnessRows.getD (0 + 1) defaultRow).t - (witnessRows.getD 0 defaultRow).t)
    ∧ ((letidStates witnessFns 115 55 witnessInit witnessRows).getD (0 + 1) defaultN).nC
      = ((letidStates witnessFns 115 55 witnessInit witnessRows).getD 0 defaultN).nC
        + dN_Cdt
            (witnessFns.kBC (witnessRows.getD (0 + 1) defaultRow).temp)
            (witnessFns.kCB (witnessRows.getD (0 + 1) defaultRow).temp)
            (witnessFns.xbc
              (tau_now 115 55
                (((letidStates witnessFns 115 55 witnessInit witnessRows).getD 0 defaultN).nB))
              (witnessRows.getD (0 + 1) defaultRow).temp
              (witnessRows.getD (0 + 1) defaultRow).inj
              (witnessFns.jsc (tau_now 115 55
                (((letidStates witnessFns 115 55 witnessInit witnessRows).getD 0 defaultN).nB))))
            (((letidStates witnessFns 115 55 witnessInit witnessRows).getD 0 defaultN).nB)
            (((letidStates witnessFns 115 55 witnessInit witnessRows).getD 0 defaultN).nC)
          * ((witnessRows.getD (0 + 1) defaultRow).t - (witnessRows.getD 0 defaultRow).t))) :=
  ⟨by decide,
   euler_step_consecutive_rows witnessFns 115 55 witnessInit witnessRows 0 (by decide)⟩

/-- Claim C5 (amended): every lifetime in the post-loop tau column lies
between `min tau_0 tau_deg` and `max tau_0 tau_deg` inclusive, provided the
corresponding NB values lie within [0, 100]; the unclamped forward-Euler
update does not guarantee that side condition. -/
theorem tau_bounded_of_nB_in_range (tau_0 tau_deg x : ℚ) (states : List NState)
    (hN : ∀ s ∈ states, 0 ≤ s.nB ∧ s.nB ≤ 100)
    (hx : x ∈ tauColumn tau_0 tau_deg states) :
    min tau_0 tau_deg ≤ x ∧ x ≤ max tau_0 tau_deg := by
  simp only [tauColumn, List.mem_map] at hx
  obtain ⟨s, hs, rfl⟩ := hx
  obtain ⟨h0, h100⟩ := hN s hs
  simp only [tau_now]
  rcases le_total tau_0 tau_deg with hle | hle
  · rw [min_eq_left hle, max_eq_right hle]
    constructor <;> nlinarith
  · rw [min_eq_right hle, max_eq_left hle]
    constructor <;> nlinarith

/-- Concrete one-state list used as the witness for the lifetime bound. -/
def witnessStates : List NState := [⟨50, 50, 0⟩]

/-- Witness for claim C5 (amended) at a concrete state list with NB = 50 and
lifetimes tau_0 = 350, tau_deg = 41: the interpolated lifetime 391/2 stays
within the bounds. -/
theorem tau_bounded_of_nB_in_range_witness :
    ((∀ s ∈ witnessStates, 0 ≤ s.nB ∧ s.nB ≤ 100)
      ∧ (391/2 : ℚ) ∈ tauColumn 350 41 witnessStates)
    ∧ (min (350:ℚ) 41 ≤ 391/2 ∧ (391/2:ℚ) ≤ max (350:ℚ) 41) :=
  ⟨⟨by norm_num [witnessStates], by norm_num [tauColumn, witnessStates, tau_now]⟩,
   tau_bounded_of_nB_in_range 350 41 (391/2) witnessStates
     (by norm_num [witnessStates]) (by norm_num [tauColumn, witnessStates, tau_now])⟩

/-- Concrete loop functions that drive NB above 100 in a single unclamped
forward-Euler step: only the A to B transition is active. -/
def cexFns : LetidFns where
  kAB := fun _ => 1
  kBA := fun _ => 0
  kBC := fun _ => 0
  kCB := fun _ => 0
  xab := fun _ _ _ _ => 1
  xba := fun _ _ _ _ => 0
  xbc := fun _ _ _ _ => 0
  jsc := fun _ => 40

/-- Concrete two-row timeseries with a two-second gap for the
counterexample run. -/
def cexRows : List Row := [⟨0, 75, 1/10⟩, ⟨2, 75, 1/10⟩]

/-- Counterexample to claim C5 as stated: with tau_0 = 100, tau_deg = 50,
the run starting from (100, 0, 0) reaches NB = 200 after one step, and the
recomputed lifetime 0 falls outside [min 100 50, max 100 50]. -/
theorem tau_bound_fails_unclamped :
    ¬ (∀ x ∈ tauColumn 100 50 (letidStates cexFns 100 50 ⟨100, 0, 0⟩ cexRows),
        min (100:ℚ) 50 ≤ x ∧ x ≤ max (100:ℚ) 50) := by
  intro h
  have hx : (0:ℚ) ∈ tauColumn 100 50 (letidStates cexFns 100 50 ⟨100, 0, 0⟩ cexRows) := by
    norm_num [tauColumn, letidStates, letidAux, cexFns, cexRows, step, stepAtTau,
      tau_now, dN_Adt, dN_Bdt, dN_Cdt]
  have hb := h 0 hx
  norm_num at hb

/-- One row of the timestep record seen by the device-electrical-parameter
stage: inputs Jsc and Voc (with the timestamp), plus the numeric columns
the stage fills in. -/
structure DeviceRow where
  datetime : ℚ
  jsc : ℚ
  voc : ℚ
  isc : ℚ
  ff : ℚ
  pmp : ℚ
  pmpNorm : ℚ
deriving DecidableEq

/-- Modelled from the spec: the per-row part of `letid.calc_device_params`
(not shipped with the verified sources): Isc = Jsc x cell area with the
mA-to-A conversion, FF by the closed-form fill-factor function (passed in as
`ffFn`, a pure function of Voc), Pmp = Voc x Isc x FF; Jsc and Voc are read,
never written. -/
def fillDeviceRow (ffFn : ℚ → ℚ) (cellArea : ℚ) (r : DeviceRow) : DeviceRow :=
  let isc := r.jsc * cellArea / 1000
  let ff := ffFn r.voc
  let pmp := r.voc * isc * ff
  { r with isc := isc, ff := ff, pmp := pmp }

/-- Modelled from the spec: `letid.calc_device_params` (not shipped with the
verified sources) fills Isc, FF and Pmp on every row from that row's Jsc and
Voc, then normalizes Pmp by the first row's Pmp to obtain Pmp_norm.  It is a
pure function of the record and the cell area. -/
def calc_device_params (ffFn : ℚ → ℚ) (cellArea : ℚ) (rows : List DeviceRow) : List DeviceRow :=
  let filled := rows.map (fillDeviceRow ffFn cellArea)
  let pmp_0 := match filled with
    | [] => 1
    | r :: _ => r.pmp
  filled.map fun r => { r with pmpNorm := r.pmp / pmp_0 }

theorem fillDeviceRow_stable (ffFn : ℚ → ℚ) (cellArea c : ℚ) (r : DeviceRow) :
    fillDeviceRow ffFn cellArea
        { fillDeviceRow ffFn cellArea r with
            pmpNorm := (fillDeviceRow ffFn cellArea r).pmp / c }
      = { fillDeviceRow ffFn cellArea r with
            pmpNorm := (fillDeviceRow ffFn cellArea r).pmp / c } := by
  simp [fillDeviceRow]

/-- Claim C7: the device-electrical-parameter stage is idempotent: applying
`calc_device_params` twice with the same fill-factor function and cell area
yields a record identical to applying it once (in particular the numeric
columns Isc, FF, Pmp, Pmp_norm agree); as a plain function of its arguments
it has no hidden state. -/
theorem calc_device_params_idempotent (ffFn : ℚ → ℚ) (cellArea : ℚ)
    (rows : List DeviceRow) :
    calc_device_params ffFn cellArea (calc_device_params ffFn cellArea rows)
      = calc_device_params ffFn cellArea rows := by
  cases rows with
  | nil => rfl
  | cons r rest =>
      simp only [calc_device_params, List.map_cons, List.map_map]
      have hfix : ∀ s : DeviceRow,
          fillDeviceRow ffFn cellArea
              { fillDeviceRow ffFn cellArea s with
                  pmpNorm := (fillDeviceRow ffFn cellArea s).pmp
                    / (fillDeviceRow ffFn cellArea r).pmp }
            = { fillDeviceRow ffFn cellArea s with
                  pmpNorm := (fillDeviceRow ffFn cellArea s).pmp
                    / (fillDeviceRow ffFn cellArea r).pmp } := fun s =>
        fillDeviceRow_stable ffFn cellArea ((fillDeviceRow ffFn cellArea r).pmp) s
      simp only [Function.comp_def, hfix]


/-- One row of the record seen by the regeneration-time query: timestamp and
normalized maximum power. -/
structure RegenRow where
  datetime : ℚ
  pmpNorm : ℚ
deriving DecidableEq

/-- Modelled from the spec: scan for the first timestamp at which Pmp_norm
recovers past the threshold `x` after having dropped below it; the flag
records whether a drop below `x` has already been seen. -/
def regenScan : List RegenRow → ℚ → Bool → Option ℚ
  | [], _, _ => none
  | r :: rest, x, dropped =>
      if dropped && decide (x ≤ r.pmpNorm) then some r.datetime
      else regenScan rest x (dropped || decide (r.pmpNorm < x))

/-- Modelled from the spec: `regeneration_time(timestep_record, threshold)`
returns the first timestamp at which Pmp_norm recovers past the threshold
after having dropped below it, and an absent value (`none`) when the
threshold is never re-crossed. -/
def calc_regeneration_time_spec (rows : List RegenRow) (x : ℚ) : Option ℚ :=
  regenScan rows x false

/-- Modelled from the spec and from the behavior documented by the test in
`src/tests/test_letid.py` (`test_calc_regeneration_time`):
`letid.calc_regeneration_time` reads the first row of the selection with a
single positional indexer, so when no row qualifies the call raises
IndexError instead of returning an absent value. -/
def calc_regeneration_time_code (rows : List RegenRow) (x : ℚ) : Except String ℚ :=
  match regenScan rows x false with
  | some t => Except.ok t
  | none => Except.error "IndexError: single positional indexer is out-of-bounds"

/-- Concrete record whose Pmp_norm drops below the threshold 4/5 at the
second row and never recovers past it. -/
def regenRowsNoRecovery : List RegenRow := [⟨0, 1⟩, ⟨60, 7/10⟩, ⟨120, 3/4⟩]

/-- Claim C8: at a record whose Pmp_norm never re-crosses the threshold, the
behavior documented for the shipped code is an IndexError, while the claimed
interface returns the representable absent value `none`; on the same scan a
re-crossing record returns the first recovery timestamp. -/
theorem regen_time_crashes_when_never_recrossed :
    calc_regeneration_time_code regenRowsNoRecovery (4/5)
        = Except.error "IndexError: single positional indexer is out-of-bounds"
    ∧ calc_regeneration_time_spec regenRowsNoRecovery (4/5) = none
    ∧ calc_regeneration_time_spec (regenRowsNoRecovery ++ [⟨180, 9/10⟩]) (4/5)
        = some 180 := by
  refine ⟨?_, ?_, ?_⟩ <;>
    norm_num [calc_regeneration_time_code, calc_regeneration_time_spec,
      regenScan, regenRowsNoRecovery]

/-- Process-wide ambient state touched by `Scenario.__init__`: the current
working directory, the set of existing directories, and an abstract `rest`
component standing for every other object in the process. -/
structure ProcState (α : Type) where
  cwd : String
  dirs : List String
  rest : α
deriving DecidableEq

/-- The fields of the scenario object that `Scenario.__init__` derives from
its `name` and `path` arguments. -/
structure ScenarioObj where
  sname : String
  spath : String
deriving DecidableEq

/-- Model of `os.path.join` for one component. -/
def joinPath (a b : String) : String := a ++ "/" ++ b

/-- Embedding of `pvdeg.scenario.Scenario.__init__` (with no restore file):
if `name` is None it falls back to the DDMMYY file date; if `path` is None it
computes `pvd_job_<name>` under the current working directory and creates
that directory when absent; in every case it then calls `os.chdir` on the
scenario path, mutating the working directory of the whole process. -/
def scenarioInit {α : Type} (name path : Option String) (filedate : String)
    (st : ProcState α) : ProcState α × ScenarioObj :=
  let n := name.getD filedate
  match path with
  | some p => ({ st with cwd := p }, ⟨n, p⟩)
  | none =>
      let p := joinPath st.cwd ("pvd_job_" ++ n)
      let dirs2 := if p ∈ st.dirs then st.dirs else p :: st.dirs
      ({ st with cwd := p, dirs := dirs2 }, ⟨n, p⟩)

/-- Claim C9: constructing a Scenario mutates process-wide ambient state:
with no path it creates `pvd_job_<name>` under the current working directory,
and in every case it changes the working directory of the process to the
scenario path, while the rest of the process state is untouched; with an
explicit path no directory is created. -/
theorem scenario_init_state_effects {α : Type} (name : Option String)
    (filedate : String) (st : ProcState α) :
    ((scenarioInit name none filedate st).1.cwd
        = joinPath st.cwd ("pvd_job_" ++ name.getD filedate)
      ∧ joinPath st.cwd ("pvd_job_" ++ name.getD filedate)
          ∈ (scenarioInit name none filedate st).1.dirs
      ∧ (scenarioInit name none filedate st).1.cwd
          = (scenarioInit name none filedate st).2.spath
      ∧ (scenarioInit name none filedate st).1.rest = st.rest)
    ∧ ∀ p : String,
        (scenarioInit name (some p) filedate st).1.cwd = p
        ∧ (scenarioInit name (some p) filedate st).1.dirs = st.dirs
        ∧ (scenarioInit name (some p) filedate st).1.cwd
            = (scenarioInit name (some p) filedate st).2.spath
        ∧ (scenarioInit name (some p) filedate st).1.rest = st.rest := by
  constructor
  · refine ⟨rfl, ?_, rfl, rfl⟩
    simp only [scenarioInit]
    split
    · assumption
    · exact List.mem_cons_self _ _
  · intro p
    exact ⟨rfl, rfl, rfl, rfl⟩

/-- The type of the `id` argument of `pvdeg.weather.load`: a Python value
that is a tuple, an int, or anything else (string, float, bool, None, ...);
the source checks `type(id) is tuple` and `type(id) is int`. -/
inductive PyId where
  | intId (gid : Int)
  | tupleId (lat lon : ℚ)
  | otherId (tag : String)
deriving DecidableEq

/-- Observable outcome of a `weather.load` call: an immediate TypeError, an
immediate NameError, or the dispatch to a weather source / reader (the only
paths that contact any data source). -/
inductive LoadOutcome where
  | typeError (msg : String)
  | nameError (msg : String)
  | fetch (source : String)
deriving DecidableEq

/-- Embedding of `pvdeg.weather.load`: the id type check runs first and
raises TypeError for anything that is neither a tuple nor an int; then the
database string dispatches to one of the six known sources, and any other
database name raises NameError. -/
def weatherLoad (database : String) (id : PyId) : LoadOutcome :=
  match id with
  | PyId.otherId _ =>
      LoadOutcome.typeError
        "Project points needs to be either location tuple (latitude, longitude), or gid integer."
  | _ =>
      if database = "NSRDB" then LoadOutcome.fetch "get_NSRDB"
      else if database = "PSM3" then LoadOutcome.fetch "pvlib.iotools.get_psm3"
      else if database = "PVGIS" then LoadOutcome.fetch "pvlib.iotools.get_pvgis_tmy"
      else if database = "EPW" then LoadOutcome.fetch "pvlib.iotools.read_epw"
      else if database = "TMY3" then LoadOutcome.fetch "pvlib.iotools.read_tmy3"
      else if database = "h5" then LoadOutcome.fetch "read_h5"
      else LoadOutcome.nameError "Weather database not found."

/-- Claim C10: `weather.load` validates before any acquisition: an id that
is neither a tuple nor an int yields a TypeError for every database string,
recognized or not, and never reaches a fetch; a database string outside the
six known names yields a NameError for every valid id, also without reaching
a fetch. -/
theorem weather_load_validates_before_fetch (db tag : String) (gid : Int)
    (lat lon : ℚ)
    (hdb : db ∉ ["NSRDB", "PSM3", "PVGIS", "EPW", "TMY3", "h5"]) :
    (∀ d : String,
      weatherLoad d (PyId.otherId tag)
          = LoadOutcome.typeError
              "Project points needs to be either location tuple (latitude, longitude), or gid integer."
      ∧ ∀ src : String, weatherLoad d (PyId.otherId tag) ≠ LoadOutcome.fetch src)
    ∧ weatherLoad db (PyId.intId gid) = LoadOutcome.nameError "Weather database not found."
    ∧ weatherLoad db (PyId.tupleId lat lon)
        = LoadOutcome.nameError "Weather database not found."
    ∧ ∀ src : String,
        weatherLoad db (PyId.intId gid) ≠ LoadOutcome.fetch src
        ∧ weatherLoad db (PyId.tupleId lat lon) ≠ LoadOutcome.fetch src := by
  simp only [List.mem_cons, List.mem_singleton, not_or] at hdb
  obtain ⟨h1, h2, h3, h4, h5, h6, -⟩ := hdb
  refine ⟨?_, ?_, ?_, ?_⟩
  · intro d
    exact ⟨rfl, fun src => by simp [weatherLoad]⟩
  · simp [weatherLoad, h1, h2, h3, h4, h5, h6]
  · simp [weatherLoad, h1, h2, h3, h4, h5, h6]
  · intro src
    constructor
    · simp [weatherLoad, h1, h2, h3, h4, h5, h6]
    · simp [weatherLoad, h1, h2, h3, h4, h5, h6]

/-- Witness for claim C10 at the concrete database string SolarAnywhere,
which is not one of the six recognized names. -/
theorem weather_load_validates_before_fetch_witness :
    "SolarAnywhere" ∉ ["NSRDB", "PSM3", "PVGIS", "EPW", "TMY3", "h5"]
    ∧ ((∀ d : String,
        weatherLoad d (PyId.otherId "none")
            = LoadOutcome.typeError
                "Project points needs to be either location tuple (latitude, longitude), or gid integer."
        ∧ ∀ src : String, weatherLoad d (PyId.otherId "none") ≠ LoadOutcome.fetch src)
      ∧ weatherLoad "SolarAnywhere" (PyId.intId 145809)
          = LoadOutcome.nameError "Weather database not found."
      ∧ weatherLoad "SolarAnywhere" (PyId.tupleId (798/20) (-10512/100))
          = LoadOutcome.nameError "Weather database not found."
      ∧ ∀ src : String,
          weatherLoad "SolarAnywhere" (PyId.intId 145809) ≠ LoadOutcome.fetch src
          ∧ weatherLoad "SolarAnywhere" (PyId.tupleId (798/20) (-10512/100))
              ≠ LoadOutcome.fetch src) :=
  ⟨by decide,
   weather_load_validates_before_fetch "SolarAnywhere" "none" 145809
     (798/20) (-10512/100) (by decide)⟩
